import Mathlib

/-!
Verification development for the casepulse backend (src/main.py).

The file shallowly embeds the date helpers, the two search dispatchers,
the supreme-court monitor and the cerc search endpoint.  External backend
adapters (the scrapers package) are modelled as function parameters that
either return a result list or fail, exactly as a raising Python call
would; the dispatchers additionally record the adapter calls they make so
that statements about "which backend was invoked with which date" can be
expressed.
-/

set_option maxHeartbeats 1000000

namespace CasePulse

/-! ## Date helpers (src/main.py, DATE HELPERS section) -/

/-- Decimal digits folded to a natural number, as strptime reads a numeric field. -/
def digitsToNat (l : List Char) : Nat := l.foldl (fun n c => 10 * n + (c.toNat - 48)) 0

/-- One numeric field of a strptime pattern: nonempty, all digits, at most maxLen digits. -/
def parseField (l : List Char) (maxLen : Nat) : Option Nat :=
  if l ≠ [] ∧ l.length ≤ maxLen ∧ l.all Char.isDigit then some (digitsToNat l) else none

structure Date where
  year : Nat
  month : Nat
  day : Nat
deriving DecidableEq, Repr

def isLeap (y : Nat) : Bool := (y % 4 == 0 && y % 100 != 0) || (y % 400 == 0)

def daysInMonth (y m : Nat) : Nat :=
  if m = 2 then (if isLeap y then 29 else 28)
  else if m = 4 ∨ m = 6 ∨ m = 9 ∨ m = 11 then 30
  else 31

/-- Range checks performed by datetime construction inside strptime. -/
def mkDate (y m d : Nat) : Option Date :=
  if 1 ≤ y ∧ y ≤ 9999 ∧ 1 ≤ m ∧ m ≤ 12 ∧ 1 ≤ d ∧ d ≤ daysInMonth y m then some ⟨y, m, d⟩
  else none

/-- Field separation at dashes, as the dash-separated strptime patterns consume input. -/
def splitOnDash : List Char → List (List Char)
  | [] => [[]]
  | c :: rest =>
    if c = '-' then [] :: splitOnDash rest
    else
      match splitOnDash rest with
      | [] => [[c]]
      | g :: gs => (c :: g) :: gs

/-- datetime.strptime(s, "%Y-%m-%d"); none where Python raises ValueError. -/
def strptimeYMD (s : String) : Option Date :=
  match splitOnDash s.data with
  | [ys, ms, ds] =>
    match parseField ys 4, parseField ms 2, parseField ds 2 with
    | some y, some m, some d => mkDate y m d
    | _, _, _ => none
  | _ => none

/-- datetime.strptime(s, "%d-%m-%Y"); none where Python raises ValueError. -/
def strptimeDMY (s : String) : Option Date :=
  match splitOnDash s.data with
  | [ds, ms, ys] =>
    match parseField ys 4, parseField ms 2, parseField ds 2 with
    | some y, some m, some d => mkDate y m d
    | _, _, _ => none
  | _ => none

def pad2 (n : Nat) : String := if n < 10 then "0" ++ toString n else toString n

def pad4 (n : Nat) : String :=
  if n < 10 then "000" ++ toString n
  else if n < 100 then "00" ++ toString n
  else if n < 1000 then "0" ++ toString n
  else toString n

/-- d.strftime("%d.%m.%Y") -/
def strftimeDotted (d : Date) : String := pad2 d.day ++ "." ++ pad2 d.month ++ "." ++ pad4 d.year

/-- d.strftime("%d-%m-%Y") -/
def strftimeDashed (d : Date) : String := pad2 d.day ++ "-" ++ pad2 d.month ++ "-" ++ pad4 d.year

/-- d.strftime("%d/%m/%Y") -/
def strftimeSlashed (d : Date) : String := pad2 d.day ++ "/" ++ pad2 d.month ++ "/" ++ pad4 d.year

/-- Python membership test `c in s` for a single character. -/
def containsChar (s : String) (c : Char) : Bool := s.data.any (fun a => a == c)

/-- convert_date_for_delhi (main.py line 108). -/
def convert_date_for_delhi (s : String) : Option String := (strptimeYMD s).map strftimeDotted

/-- convert_date_for_bombay (main.py line 113). -/
def convert_date_for_bombay (s : String) : Option String := (strptimeYMD s).map strftimeDashed

/-- convert_date_for_nclat (main.py line 118).  A none result covers both the
ValueError a failing strptime raises and the IndexError raised by date_str[2]
when the string is shorter than three characters. -/
def convert_date_for_nclat (s : String) : Option String :=
  if containsChar s '/' then some s
  else if containsChar s '-' then
    match s.data[2]? with
    | none => none
    | some c =>
      if c = '-' then (strptimeDMY s).map strftimeSlashed
      else (strptimeYMD s).map strftimeSlashed
  else (strptimeYMD s).map strftimeSlashed

/-! ## Request models (src/main.py, MODELS section) -/

structure SearchRequest where
  partyName : String
  date : Option String
  court : String

structure SearchRangeRequest where
  partyName : String
  startDate : String
  endDate : String
  court : String

structure MonitorRequest where
  keyword : String
  mode : String
  year : Option String := none

structure CercRequest where
  month : String
  party : String

/-! ## Dispatcher (src/main.py, search_cases and search_cases_range)

The scraper modules are external to the repository, so the dispatcher is
parameterised by an environment mapping each adapter call to either a result
list or an error (a raising Python call).  The dispatcher's value is the pair
of (adapter calls actually made, merged result list): the first component lets
the theorems speak about which backend was invoked with which date strings. -/

inductive CourtName where
  | supreme | delhi | bombay | nclat
deriving DecidableEq, Repr

inductive BackendCall where
  | search (backend : CourtName) (party : String) (date : String)
  | search_range (backend : CourtName) (party : String) (startDate : String) (endDate : String)
deriving DecidableEq, Repr

def BackendEnv (α : Type) := BackendCall → Except String (List α)

/-- One adapter call inside its try/except: a raising call contributes zero records. -/
def runCall {α : Type} (env : BackendEnv α) (c : BackendCall) : List α :=
  match env c with
  | .ok rs => rs
  | .error _ => []

/-- One dispatcher branch: none means the branch either was not selected or
raised before reaching the adapter call (a failing date conversion inside the
try block), so no adapter call is made and zero records are contributed. -/
def runBranch {α : Type} (env : BackendEnv α) (c : Option BackendCall) : List α :=
  match c with
  | some call => runCall env call
  | none => []

/-- Branch `if request.court in ("supreme", "all")` of search_cases:
no date conversion at all. -/
def singleSupreme (req : SearchRequest) (date : String) : Option BackendCall :=
  if req.court = "supreme" ∨ req.court = "all" then
    some (.search .supreme req.partyName date)
  else none

/-- Branch `if request.court in ("delhi", "all")` of search_cases:
the date is converted only in "all" mode, inside the try block. -/
def singleDelhi (req : SearchRequest) (date : String) : Option BackendCall :=
  if req.court = "delhi" ∨ req.court = "all" then
    match (if req.court = "all" then convert_date_for_delhi date else some date) with
    | some d => some (.search .delhi req.partyName d)
    | none => none
  else none

/-- Branch `if request.court in ("bombay", "all")` of search_cases. -/
def singleBombay (req : SearchRequest) (date : String) : Option BackendCall :=
  if req.court = "bombay" ∨ req.court = "all" then
    match (if req.court = "all" then convert_date_for_bombay date else some date) with
    | some d => some (.search .bombay req.partyName d)
    | none => none
  else none

/-- Branch `if request.court == "nclat"` of search_cases: the single date is
always pushed through convert_date_for_nclat and dispatched as a range call
with equal endpoints. -/
def singleNclat (req : SearchRequest) (date : String) : Option BackendCall :=
  if req.court = "nclat" then
    match convert_date_for_nclat date with
    | some d => some (.search_range .nclat req.partyName d d)
    | none => none
  else none

def singleCalls (req : SearchRequest) (date : String) : List (Option BackendCall) :=
  [singleSupreme req date, singleDelhi req date, singleBombay req date, singleNclat req date]

/-- POST /api/search (main.py line 132).  `if not request.date` is Python
falsiness: both a missing date and an empty-string date short-circuit to []. -/
def search_cases {α : Type} (env : BackendEnv α) (req : SearchRequest) :
    List BackendCall × List α :=
  match req.date with
  | none => ([], [])
  | some date =>
    if date = "" then ([], [])
    else ((singleCalls req date).filterMap id,
          ((singleCalls req date).map (runBranch env)).flatten)

/-- Branch `if request.court in ("supreme", "all")` of search_cases_range. -/
def rangeSupreme (req : SearchRangeRequest) : Option BackendCall :=
  if req.court = "supreme" ∨ req.court = "all" then
    some (.search_range .supreme req.partyName req.startDate req.endDate)
  else none

/-- Branch `if request.court in ("delhi", "all")` of search_cases_range. -/
def rangeDelhi (req : SearchRangeRequest) : Option BackendCall :=
  if req.court = "delhi" ∨ req.court = "all" then
    match (if req.court = "all" then convert_date_for_delhi req.startDate else some req.startDate),
          (if req.court = "all" then convert_date_for_delhi req.endDate else some req.endDate) with
    | some s, some e => some (.search_range .delhi req.partyName s e)
    | _, _ => none
  else none

/-- Branch `if request.court in ("bombay", "all")` of search_cases_range. -/
def rangeBombay (req : SearchRangeRequest) : Option BackendCall :=
  if req.court = "bombay" ∨ req.court = "all" then
    match (if req.court = "all" then convert_date_for_bombay req.startDate else some req.startDate),
          (if req.court = "all" then convert_date_for_bombay req.endDate else some req.endDate) with
    | some s, some e => some (.search_range .bombay req.partyName s e)
    | _, _ => none
  else none

/-- Branch `if request.court == "nclat"` of search_cases_range. -/
def rangeNclat (req : SearchRangeRequest) : Option BackendCall :=
  if req.court = "nclat" then
    match convert_date_for_nclat req.startDate, convert_date_for_nclat req.endDate with
    | some s, some e => some (.search_range .nclat req.partyName s e)
    | _, _ => none
  else none

def rangeCalls (req : SearchRangeRequest) : List (Option BackendCall) :=
  [rangeSupreme req, rangeDelhi req, rangeBombay req, rangeNclat req]

/-- POST /api/search-range (main.py line 197). -/
def search_cases_range {α : Type} (env : BackendEnv α) (req : SearchRangeRequest) :
    List BackendCall × List α :=
  ((rangeCalls req).filterMap id,
   ((rangeCalls req).map (runBranch env)).flatten)

/-! ## Supreme monitor and cerc search (src/main.py lines 273-341)

The monitor's snapshot store (one JSON file per key under DATA_DIR) is
modelled as a map from filename to optionally-present stored list; reading a
missing file is the os.path.exists guard yielding old_data = [].  Records are
an arbitrary type with decidable (structural) equality, matching Python dict
equality on the scraped records. -/

/-- Python str.strip() character class (Unicode-simplified to the ASCII
whitespace Python always strips). -/
def pyIsSpace (c : Char) : Bool :=
  c = ' ' || c = '\t' || c = '\n' || c = '\r' || c = '\x0b' || c = '\x0c'

/-- Strip trailing whitespace characters. -/
def rstripChars (l : List Char) : List Char := (l.reverse.dropWhile pyIsSpace).reverse

/-- Strip leading then trailing whitespace characters. -/
def stripChars (l : List Char) : List Char := rstripChars (l.dropWhile pyIsSpace)

/-- Python str.strip(). -/
def pyStrip (s : String) : String := String.mk (stripChars s.data)

/-- Replacement of one character performed by keyword.replace(' ', '_'). -/
def replSp (c : Char) : Char := if c = ' ' then '_' else c

/-- Python keyword.replace(' ', '_'): a single-character replace is a map. -/
def pyReplaceSpace (s : String) : String := String.mk (s.data.map replSp)

/-- Snapshot filename built by supreme_monitor (main.py line 281):
the f-string keyword.replace(' ', '_') + "_" + mode + ".json" applied to the
stripped keyword. -/
def monitorFilename (keyword mode : String) : String :=
  pyReplaceSpace (pyStrip keyword) ++ "_" ++ mode ++ ".json"

/-- The two response dictionaries supreme_monitor can return (main.py
lines 290 and 302); the no_change variant carries "count", the updated
variant "new_items" and "total". -/
inductive MonitorResponse (R : Type) where
  | no_change (message : String) (count : Nat) (file : String)
  | updated (message : String) (new_items : List R) (total : Nat) (file : String)
deriving DecidableEq

/-- The part of supreme_monitor after the scrape succeeded: load the old
snapshot (missing file gives []), compare by full structural equality of the
whole list, and on change compute new_items by membership of whole records
and overwrite the file with the complete current result. -/
def monitorStep {R : Type} [DecidableEq R] (store : String → Option (List R))
    (filename : String) (all_results : List R) :
    MonitorResponse R × (String → Option (List R)) :=
  if (store filename).getD [] = all_results then
    (.no_change "No new updates" all_results.length filename, store)
  else
    (.updated "New judgments found"
       (all_results.filter (fun x => decide (¬ x ∈ (store filename).getD [])))
       all_results.length filename,
     fun f => if f = filename then some all_results else store f)

/-- POST /api/supreme/monitor (main.py line 273).  The scrape call
supreme_court.monitor(keyword, mode) is not wrapped in try/except, so a
raising scrape propagates out of the endpoint. -/
def supreme_monitor {R : Type} [DecidableEq R]
    (scrape : String → String → Except String (List R))
    (store : String → Option (List R)) (req : MonitorRequest) :
    Except String (MonitorResponse R × (String → Option (List R))) :=
  match scrape (pyStrip req.keyword) req.mode with
  | .error e => .error e
  | .ok all_results =>
    .ok (monitorStep store (monitorFilename req.keyword req.mode) all_results)

/-- POST /api/cerc/search (main.py line 334): the backend call is wrapped,
and a failure degrades to the empty success shape with results [] and count 0. -/
def cerc_search {α : Type} (cercBackend : String → String → Except String (List α))
    (req : CercRequest) : List α × Nat :=
  match cercBackend req.month req.party with
  | .ok data => (data, data.length)
  | .error _ => ([], 0)

/-! ## Concrete instances used by closed witness and counterexample statements -/

/-- Concrete environment used by closed witness statements. -/
def unitEnv : BackendEnv Unit := fun _ => .ok []

/-- Environment answering every call with that call itself, so a concrete
dispatch result exhibits exactly which adapter calls contributed records. -/
def echoEnv : BackendEnv BackendCall := fun c => .ok [c]

/-- A scrape that always raises. -/
def natFailScrape : String → String → Except String (List Nat) := fun _ _ => .error "backend down"

/-- A scrape returning the fixed list [1, 2, 3]. -/
def natScrape123 : String → String → Except String (List Nat) := fun _ _ => .ok [1, 2, 3]

/-- A scrape returning the empty list. -/
def natEmptyScrape : String → String → Except String (List Nat) := fun _ _ => .ok []

/-- A snapshot store with no files. -/
def natEmptyStore : String → Option (List Nat) := fun _ => none

/-- A snapshot store holding the prior snapshot [1, 2] for key "k_party.json". -/
def natStore12 : String → Option (List Nat) := fun f =>
  if f = "k_party.json" then some [1, 2] else none

/-- A cerc backend that always raises. -/
def cercFail : String → String → Except String (List Nat) := fun _ _ => .error "backend down"

/-- The store natEmptyStore after the monitor persisted [1, 2, 3] under "k_party.json". -/
def natStoreAfter : String → Option (List Nat) := fun f =>
  if f = "k_party.json" then some [1, 2, 3] else natEmptyStore f

example : convert_date_for_delhi "2024-03-05" = some "05.03.2024" := by decide
example : convert_date_for_bombay "2024-03-05" = some "05-03-2024" := by decide
example : convert_date_for_nclat "2024-03-05" = some "05/03/2024" := by decide
example : convert_date_for_nclat "05-03-2024" = some "05/03/2024" := by decide
example : convert_date_for_nclat "05/03/2024" = some "05/03/2024" := by decide
example : convert_date_for_delhi "garbage" = none := by decide
example : convert_date_for_nclat "2024-02-30" = none := by decide
example : search_cases echoEnv ⟨"p", some "2024-03-05", "all"⟩ =
    ([.search .supreme "p" "2024-03-05", .search .delhi "p" "05.03.2024",
      .search .bombay "p" "05-03-2024"],
     [.search .supreme "p" "2024-03-05", .search .delhi "p" "05.03.2024",
      .search .bombay "p" "05-03-2024"]) := by decide
example : search_cases echoEnv ⟨"p", some "2024-03-05", "nclat"⟩ =
    ([.search_range .nclat "p" "05/03/2024" "05/03/2024"],
     [.search_range .nclat "p" "05/03/2024" "05/03/2024"]) := by decide
example : search_cases echoEnv ⟨"p", some "garbage", "all"⟩ =
    ([.search .supreme "p" "garbage"], [.search .supreme "p" "garbage"]) := by decide
example : search_cases_range echoEnv ⟨"p", "2024-03-05", "2024-03-06", "cerc"⟩ = ([], []) := by
  decide
example : monitorFilename "  foo bar " "party" = "foo_bar_party.json" := by decide
example : supreme_monitor natScrape123 natStore12 ⟨"k", "party", none⟩ =
    .ok (.updated "New judgments found" [3] 3 "k_party.json",
         fun f => if f = "k_party.json" then some [1, 2, 3] else natStore12 f) := rfl
example : supreme_monitor natFailScrape natEmptyStore ⟨"k", "party", none⟩ =
    .error "backend down" := rfl
example : cerc_search cercFail ⟨"m", "p"⟩ = ([], 0) := rfl

/-! ## Claim C1: monitor delta computation -/

/-- Claim C1: for every poll of the top-court monitor with current scrape
result C and stored snapshot P (absent snapshot treated as []): if C equals P
by full structural equality of the entire ordered sequence, the poll reports
no change and performs no snapshot write; otherwise it reports updated, with
new_items the sublist of C whose elements are not structurally present
anywhere in P, persists C in full as the new snapshot, and reports total
equal to the length of C. -/
theorem claim_C1_monitor_delta {R : Type} [DecidableEq R]
    (scrape : String → String → Except String (List R))
    (store : String → Option (List R)) (req : MonitorRequest) (C P : List R)
    (hC : scrape (pyStrip req.keyword) req.mode = .ok C)
    (hP : (store (monitorFilename req.keyword req.mode)).getD [] = P) :
    (C = P →
      supreme_monitor scrape store req =
        .ok (.no_change "No new updates" C.length (monitorFilename req.keyword req.mode),
             store))
    ∧ (C ≠ P →
      supreme_monitor scrape store req =
        .ok (.updated "New judgments found" (C.filter (fun x => decide (¬ x ∈ P)))
               C.length (monitorFilename req.keyword req.mode),
             fun f => if f = monitorFilename req.keyword req.mode then some C else store f)) := by
  have hrun : supreme_monitor scrape store req =
      .ok (monitorStep store (monitorFilename req.keyword req.mode) C) := by
    unfold supreme_monitor
    rw [hC]
  constructor
  · intro hCP
    rw [hrun]
    unfold monitorStep
    rw [hP, if_pos hCP.symm]
  · intro hCP
    rw [hrun]
    unfold monitorStep
    rw [hP, if_neg (fun h => hCP h.symm)]

/-- Witness for claim C1 at the spec's own delta example: snapshot [1, 2],
fresh scrape [1, 2, 3], new_items [3], persisted snapshot [1, 2, 3]. -/
theorem claim_C1_witness :
    supreme_monitor natScrape123 natStore12 ⟨"k", "party", none⟩ =
      .ok (.updated "New judgments found" [3] 3 "k_party.json",
           fun f => if f = "k_party.json" then some [1, 2, 3] else natStore12 f) :=
  (claim_C1_monitor_delta natScrape123 natStore12 ⟨"k", "party", none⟩ [1, 2, 3] [1, 2]
    rfl rfl).2 (by decide)

/-! ## Claim C5: degraded empty-success shapes -/

/-- Claim C5 counterexample: the top-court monitor does not degrade to an
empty-result success shape on backend failure; the scrape call is unguarded
and the failure propagates out of the endpoint as an error. -/
theorem claim_C5_cex :
    supreme_monitor natFailScrape natEmptyStore ⟨"k", "party", none⟩ =
      .error "backend down" := rfl

/-- Claim C5 (amended): the regulatory-commission search degrades to the
explicit empty success shape (results [], count 0) when its backend raises,
while the top-court monitor propagates a raising scrape to the caller
unchanged. -/
theorem claim_C5_degradation {α R : Type} [DecidableEq R]
    (cercBackend : String → String → Except String (List α)) (creq : CercRequest) (e : String)
    (scrape : String → String → Except String (List R)) (store : String → Option (List R))
    (mreq : MonitorRequest) :
    (cercBackend creq.month creq.party = .error e → cerc_search cercBackend creq = ([], 0))
    ∧ (scrape (pyStrip mreq.keyword) mreq.mode = .error e →
        supreme_monitor scrape store mreq = .error e) := by
  constructor
  · intro h
    unfold cerc_search
    rw [h]
  · intro h
    unfold supreme_monitor
    rw [h]

/-- Witness for claim C5 with concrete raising backends. -/
theorem claim_C5_witness :
    cerc_search cercFail ⟨"m", "p"⟩ = ([], 0)
    ∧ supreme_monitor natFailScrape natEmptyStore ⟨"k", "party", none⟩ =
        .error "backend down" :=
  ⟨(claim_C5_degradation cercFail ⟨"m", "p"⟩ "backend down" natFailScrape natEmptyStore
      ⟨"k", "party", none⟩).1 rfl,
   (claim_C5_degradation cercFail ⟨"m", "p"⟩ "backend down" natFailScrape natEmptyStore
      ⟨"k", "party", none⟩).2 rfl⟩

/-! ## Claim C7: snapshot lifecycle -/

/-- Claim C7 counterexample: the very first poll for a key does not always
create a snapshot: when the first scrape returns the empty list, it compares
equal to the absent-snapshot default [], the poll reports no change, and no
file is written. -/
theorem claim_C7_cex :
    supreme_monitor natEmptyScrape natEmptyStore ⟨"k", "party", none⟩ =
      .ok (.no_change "No new updates" 0 "k_party.json", natEmptyStore)
    ∧ natEmptyStore "k_party.json" = none := ⟨rfl, rfl⟩

/-- Claim C7 (amended): a successful poll never deletes any snapshot; it
leaves the store untouched exactly when the scrape equals the stored snapshot
(absent treated as []), otherwise it overwrites the key's snapshot in full
with the scrape and touches no other key; consequently the first poll for a
key creates its snapshot if and only if the first scrape is nonempty. -/
theorem claim_C7_snapshot_lifecycle {R : Type} [DecidableEq R]
    (scrape : String → String → Except String (List R))
    (store : String → Option (List R)) (req : MonitorRequest) (C : List R)
    (resp : MonitorResponse R) (store2 : String → Option (List R))
    (hC : scrape (pyStrip req.keyword) req.mode = .ok C)
    (hrun : supreme_monitor scrape store req = .ok (resp, store2)) :
    (∀ f, (store f).isSome = true → (store2 f).isSome = true)
    ∧ (C = (store (monitorFilename req.keyword req.mode)).getD [] → store2 = store)
    ∧ (C ≠ (store (monitorFilename req.keyword req.mode)).getD [] →
        store2 (monitorFilename req.keyword req.mode) = some C
        ∧ ∀ f, f ≠ monitorFilename req.keyword req.mode → store2 f = store f)
    ∧ (store (monitorFilename req.keyword req.mode) = none →
        ((store2 (monitorFilename req.keyword req.mode)).isSome = true ↔ C ≠ [])) := by
  have h1 : supreme_monitor scrape store req =
      .ok (monitorStep store (monitorFilename req.keyword req.mode) C) := by
    unfold supreme_monitor
    rw [hC]
  rw [h1] at hrun
  injection hrun with hpair
  have hs : (monitorStep store (monitorFilename req.keyword req.mode) C).2 = store2 := by
    rw [hpair]
  subst hs
  unfold monitorStep
  by_cases heq : (store (monitorFilename req.keyword req.mode)).getD [] = C
  · rw [if_pos heq]
    refine ⟨fun f h => h, fun _ => rfl, fun hne => absurd heq.symm hne, fun hnone => ?_⟩
    have hC0 : C = [] := by
      rw [hnone] at heq
      simpa using heq.symm
    show (store (monitorFilename req.keyword req.mode)).isSome = true ↔ C ≠ []
    rw [hnone, hC0]
    simp
  · rw [if_neg heq]
    refine ⟨fun f h => ?_, fun heq2 => absurd heq2.symm heq,
      fun _ => ⟨by simp, fun f hf => by simp [hf]⟩, fun hnone => ?_⟩
    · by_cases hffn : f = monitorFilename req.keyword req.mode
      · simp [hffn]
      · simpa [hffn] using h
    · rw [hnone] at heq
      simp at heq
      show ((fun f => if f = monitorFilename req.keyword req.mode then some C else store f)
          (monitorFilename req.keyword req.mode)).isSome = true ↔ C ≠ []
      simp [heq]

/-- Witness for claim C7: first poll with nonempty scrape [1, 2, 3] creates
the snapshot in full. -/
theorem claim_C7_witness :
    natStoreAfter "k_party.json" = some [1, 2, 3]
    ∧ ((natStoreAfter "k_party.json").isSome = true ↔ [1, 2, 3] ≠ ([] : List Nat)) := by
  have h := claim_C7_snapshot_lifecycle natScrape123 natEmptyStore ⟨"k", "party", none⟩
    [1, 2, 3] (.updated "New judgments found" [1, 2, 3] 3 "k_party.json") natStoreAfter rfl rfl
  exact ⟨(h.2.2.1 (by decide)).1, h.2.2.2 rfl⟩

/-! ## Claim C2: per-backend failure isolation -/

lemma runBranch_eq_flatten {α : Type} (env : BackendEnv α) (l : List (Option BackendCall)) :
    (l.map (runBranch env)).flatten = ((l.filterMap id).map (runCall env)).flatten := by
  induction l with
  | nil => rfl
  | cons h t ih =>
    cases h with
    | none => simpa [runBranch] using ih
    | some c => simp [runBranch, ih]

lemma runBranch_error {α : Type} (e : String) (c : Option BackendCall) :
    runBranch (fun _ => (Except.error e : Except String (List α))) c = [] := by
  cases c <;> rfl

/-- Claim C2: the list of adapter calls a dispatch makes does not depend on
the backends' outcomes (no failure aborts dispatch to the remaining
backends); the merged result is the concatenation over those calls of each
call's contribution, a raising call contributing zero records; and a request
in which every backend raises (court = "all" included) still returns the
empty list successfully. -/
theorem claim_C2_failure_isolation {α : Type} (env env2 : BackendEnv α)
    (req : SearchRequest) (rreq : SearchRangeRequest) (e : String) :
    ((search_cases env req).1 = (search_cases env2 req).1
      ∧ (search_cases env req).2 = ((search_cases env req).1.map (runCall env)).flatten)
    ∧ ((search_cases_range env rreq).1 = (search_cases_range env2 rreq).1
      ∧ (search_cases_range env rreq).2 =
          ((search_cases_range env rreq).1.map (runCall env)).flatten)
    ∧ (search_cases (fun _ => Except.error e) req).2 = ([] : List α)
    ∧ (search_cases_range (fun _ => Except.error e) rreq).2 = ([] : List α) := by
  refine ⟨⟨?_, ?_⟩, ⟨?_, ?_⟩, ?_, ?_⟩
  · unfold search_cases
    cases req.date with
    | none => rfl
    | some date => by_cases hdd : date = "" <;> simp [hdd]
  · unfold search_cases
    cases req.date with
    | none => rfl
    | some date =>
      by_cases hdd : date = "" <;> simp [hdd, runBranch_eq_flatten]
  · rfl
  · unfold search_cases_range
    exact runBranch_eq_flatten env (rangeCalls rreq)
  · unfold search_cases
    cases req.date with
    | none => rfl
    | some date =>
      by_cases hdd : date = "" <;> simp [hdd, singleCalls, runBranch_error]
  · unfold search_cases_range
    simp [rangeCalls, runBranch_error]

/-! ## Claim C3: per-backend date handling -/

lemma filterMap_id_four {β : Type} (a b c d : Option β) :
    List.filterMap id [a, b, c, d] = a.toList ++ b.toList ++ c.toList ++ d.toList := by
  cases a <;> cases b <;> cases c <;> cases d <;> rfl

/-- Claim C3 counterexample: with court naming the single specific backend
"nclat" and the caller's date "2024-03-05", the backend receives
"05/03/2024", not the date exactly as given by the caller. -/
theorem claim_C3_cex :
    (search_cases unitEnv ⟨"p", some "2024-03-05", "nclat"⟩).1 =
      [.search_range .nclat "p" "05/03/2024" "05/03/2024"]
    ∧ ("05/03/2024" : String) ≠ "2024-03-05" := by
  constructor <;> decide

/-- Claim C3 (amended): in both dispatchers, under court = "all" the delhi and
bombay backends receive the caller's date(s) converted to their native formats
while the supreme backend receives the caller's date(s) unconverted (its
native ISO form); when court names supreme, delhi or bombay specifically the
date(s) are passed exactly as given with no conversion; when court = "nclat"
the date(s) are always passed through the tribunal's dual-format normalizer,
which leaves already-slash-formatted input unchanged. -/
theorem claim_C3_date_handling {α : Type} (env : BackendEnv α)
    (p d s e dd db dn ds2 de2 bs2 be2 ns2 ne2 : String)
    (h0 : d ≠ "")
    (hdd : convert_date_for_delhi d = some dd)
    (hdb : convert_date_for_bombay d = some db)
    (hdn : convert_date_for_nclat d = some dn)
    (hds : convert_date_for_delhi s = some ds2)
    (hde : convert_date_for_delhi e = some de2)
    (hbs : convert_date_for_bombay s = some bs2)
    (hbe : convert_date_for_bombay e = some be2)
    (hns : convert_date_for_nclat s = some ns2)
    (hne2 : convert_date_for_nclat e = some ne2) :
    (search_cases env ⟨p, some d, "all"⟩).1 =
      [.search .supreme p d, .search .delhi p dd, .search .bombay p db]
    ∧ (search_cases env ⟨p, some d, "supreme"⟩).1 = [.search .supreme p d]
    ∧ (search_cases env ⟨p, some d, "delhi"⟩).1 = [.search .delhi p d]
    ∧ (search_cases env ⟨p, some d, "bombay"⟩).1 = [.search .bombay p d]
    ∧ (search_cases env ⟨p, some d, "nclat"⟩).1 = [.search_range .nclat p dn dn]
    ∧ (search_cases_range env ⟨p, s, e, "all"⟩).1 =
        [.search_range .supreme p s e, .search_range .delhi p ds2 de2,
         .search_range .bombay p bs2 be2]
    ∧ (search_cases_range env ⟨p, s, e, "supreme"⟩).1 = [.search_range .supreme p s e]
    ∧ (search_cases_range env ⟨p, s, e, "delhi"⟩).1 = [.search_range .delhi p s e]
    ∧ (search_cases_range env ⟨p, s, e, "bombay"⟩).1 = [.search_range .bombay p s e]
    ∧ (search_cases_range env ⟨p, s, e, "nclat"⟩).1 = [.search_range .nclat p ns2 ne2] := by
  refine ⟨?_, ?_, ?_, ?_, ?_, ?_, ?_, ?_, ?_, ?_⟩ <;>
    simp [search_cases, search_cases_range, singleCalls, rangeCalls, singleSupreme,
      singleDelhi, singleBombay, singleNclat, rangeSupreme, rangeDelhi, rangeBombay,
      rangeNclat, h0, hdd, hdb, hdn, hds, hde, hbs, hbe, hns, hne2]

/-- Witness for claim C3 at the caller dates 2024-03-05 and 2024-03-06. -/
theorem claim_C3_witness :
    (search_cases unitEnv ⟨"p", some "2024-03-05", "all"⟩).1 =
      [.search .supreme "p" "2024-03-05", .search .delhi "p" "05.03.2024",
       .search .bombay "p" "05-03-2024"]
    ∧ (search_cases unitEnv ⟨"p", some "2024-03-05", "delhi"⟩).1 =
        [.search .delhi "p" "2024-03-05"]
    ∧ (search_cases unitEnv ⟨"p", some "2024-03-05", "nclat"⟩).1 =
        [.search_range .nclat "p" "05/03/2024" "05/03/2024"]
    ∧ (search_cases_range unitEnv ⟨"p", "2024-03-05", "2024-03-06", "all"⟩).1 =
        [.search_range .supreme "p" "2024-03-05" "2024-03-06",
         .search_range .delhi "p" "05.03.2024" "06.03.2024",
         .search_range .bombay "p" "05-03-2024" "06-03-2024"] := by
  have h := claim_C3_date_handling unitEnv "p" "2024-03-05" "2024-03-05" "2024-03-06"
    "05.03.2024" "05-03-2024" "05/03/2024" "05.03.2024" "06.03.2024" "05-03-2024"
    "06-03-2024" "05/03/2024" "06/03/2024" (by decide) rfl rfl rfl rfl rfl rfl rfl rfl rfl
  exact ⟨h.1, h.2.2.1, h.2.2.2.2.1, h.2.2.2.2.2.1⟩

/-! ## Claim C4: single-date entry points -/

def isSingleEntry : BackendCall → Bool
  | .search _ _ _ => true
  | .search_range _ _ _ _ => false

def isNclatEqualRange (p : String) : BackendCall → Bool
  | .search_range .nclat q d1 d2 => q == p && d1 == d2
  | _ => false

lemma singleSupreme_all_isSingle (req : SearchRequest) (date : String) :
    ((singleSupreme req date).toList.all isSingleEntry) = true := by
  unfold singleSupreme
  split <;> simp [isSingleEntry]

lemma singleDelhi_all_isSingle (req : SearchRequest) (date : String) :
    ((singleDelhi req date).toList.all isSingleEntry) = true := by
  unfold singleDelhi
  split
  · cases hopt : (if req.court = "all" then convert_date_for_delhi date else some date) with
    | none => simp [hopt]
    | some dd => simp [hopt, isSingleEntry]
  · simp

lemma singleBombay_all_isSingle (req : SearchRequest) (date : String) :
    ((singleBombay req date).toList.all isSingleEntry) = true := by
  unfold singleBombay
  split
  · cases hopt : (if req.court = "all" then convert_date_for_bombay date else some date) with
    | none => simp [hopt]
    | some dd => simp [hopt, isSingleEntry]
  · simp

lemma singleNclat_none (req : SearchRequest) (date : String) (hc : req.court ≠ "nclat") :
    singleNclat req date = none := by
  unfold singleNclat
  rw [if_neg hc]

/-- Claim C4 counterexample: a single-date request for the nclat backend is
dispatched as a call to the backend's search_range entry point (with equal
endpoints), so the single-date dispatcher does synthesize a range call. -/
theorem claim_C4_cex :
    (search_cases unitEnv ⟨"p", some "2024-03-06", "nclat"⟩).1 =
      [.search_range .nclat "p" "06/03/2024" "06/03/2024"]
    ∧ isSingleEntry (.search_range .nclat "p" "06/03/2024" "06/03/2024") = false := by
  constructor <;> decide

/-- Claim C4 (amended): for every court selector other than "nclat" the
single-date dispatcher only ever invokes backends' single-date search entry
points; for "nclat", which exposes no single-date entry point here, the
single-date request is dispatched as one search_range call whose start and
end dates are equal. -/
theorem claim_C4_entry_points {α : Type} (env : BackendEnv α) (p d c : String)
    (hc : c ≠ "nclat") :
    ((search_cases env ⟨p, some d, c⟩).1.all isSingleEntry) = true
    ∧ ((search_cases env ⟨p, some d, "nclat"⟩).1.all (isNclatEqualRange p)) = true := by
  constructor
  · unfold search_cases
    by_cases hdd : d = ""
    · simp [hdd]
    · have h4 : singleNclat ⟨p, some d, c⟩ d = none := singleNclat_none _ _ hc
      simp [hdd, singleCalls, filterMap_id_four, h4, List.all_append,
        singleSupreme_all_isSingle, singleDelhi_all_isSingle, singleBombay_all_isSingle]
  · unfold search_cases
    by_cases hdd : d = ""
    · simp [hdd]
    · cases hopt : convert_date_for_nclat d with
      | none =>
        simp [hdd, singleCalls, singleSupreme, singleDelhi, singleBombay, singleNclat,
          hopt, filterMap_id_four]
      | some dn =>
        simp [hdd, singleCalls, singleSupreme, singleDelhi, singleBombay, singleNclat,
          hopt, filterMap_id_four, isNclatEqualRange]

/-- Witness for claim C4 at the selectors "supreme" and "nclat". -/
theorem claim_C4_witness :
    ("supreme" : String) ≠ "nclat"
    ∧ ((search_cases unitEnv ⟨"p", some "2024-03-05", "supreme"⟩).1.all isSingleEntry) = true
    ∧ ((search_cases unitEnv ⟨"p", some "2024-03-05", "nclat"⟩).1.all
        (isNclatEqualRange "p")) = true :=
  ⟨by decide, (claim_C4_entry_points unitEnv "p" "2024-03-05" "supreme" (by decide)).1,
   (claim_C4_entry_points unitEnv "p" "2024-03-05" "supreme" (by decide)).2⟩

/-! ## Claim C6: unparseable caller dates -/

/-- Claim C6 counterexample: with court = "all" and the unparseable date
"garbage", the delhi and bombay conversions raise inside their per-backend
try blocks, those backends are skipped, and the endpoint still returns a
successful response built from the remaining supreme call alone — no client
error surfaces. -/
theorem claim_C6_cex :
    convert_date_for_delhi "garbage" = none
    ∧ search_cases echoEnv ⟨"p", some "garbage", "all"⟩ =
        ([.search .supreme "p" "garbage"], [.search .supreme "p" "garbage"]) := by
  constructor <;> decide

/-- Claim C6 (amended): a caller date that fails to parse never surfaces as a
client error: under court = "all" the failing delhi and bombay conversions are
caught inside those backends' try blocks, the backends are skipped and
contribute zero records, and the request still succeeds with the supreme
backend's contribution; when court names supreme, delhi or bombay
specifically, the date is passed to the backend raw without dispatcher-side
parsing; when court = "nclat" the dispatcher does parse the date via the
tribunal normalizer, and on failure the nclat call is skipped and the request
still succeeds with an empty list. -/
theorem claim_C6_swallowed_dates {α : Type} (env : BackendEnv α) (p d : String)
    (h0 : d ≠ "")
    (hd1 : convert_date_for_delhi d = none) (hd2 : convert_date_for_bombay d = none)
    (hd3 : convert_date_for_nclat d = none) :
    (search_cases env ⟨p, some d, "all"⟩).1 = [.search .supreme p d]
    ∧ (search_cases env ⟨p, some d, "all"⟩).2 = runCall env (.search .supreme p d)
    ∧ (search_cases env ⟨p, some d, "supreme"⟩).1 = [.search .supreme p d]
    ∧ (search_cases env ⟨p, some d, "delhi"⟩).1 = [.search .delhi p d]
    ∧ (search_cases env ⟨p, some d, "bombay"⟩).1 = [.search .bombay p d]
    ∧ search_cases env ⟨p, some d, "nclat"⟩ = ([], []) := by
  refine ⟨?_, ?_, ?_, ?_, ?_, ?_⟩ <;>
    simp [search_cases, singleCalls, singleSupreme, singleDelhi, singleBombay, singleNclat,
      runBranch, h0, hd1, hd2, hd3]

/-- Witness for claim C6 at the unparseable date "garbage". -/
theorem claim_C6_witness :
    (search_cases unitEnv ⟨"p", some "garbage", "all"⟩).1 = [.search .supreme "p" "garbage"]
    ∧ (search_cases unitEnv ⟨"p", some "garbage", "delhi"⟩).1 =
        [.search .delhi "p" "garbage"]
    ∧ search_cases unitEnv ⟨"p", some "garbage", "nclat"⟩ = ([], []) := by
  have h := claim_C6_swallowed_dates unitEnv "p" "garbage" (by decide) rfl rfl rfl
  exact ⟨h.1, h.2.2.2.1, h.2.2.2.2.2⟩

/-! ## Claim C8: tribunal date normalizer round trip and idempotence -/

lemma strftimeSlashed_contains (d : Date) : containsChar (strftimeSlashed d) '/' = true := by
  have hslash : ("/" : String).data = ['/'] := rfl
  unfold strftimeSlashed containsChar
  rw [String.data_append, String.data_append, String.data_append, String.data_append]
  simp [hslash]

lemma convert_nclat_of_slash (t : String) (h : containsChar t '/' = true) :
    convert_date_for_nclat t = some t := by
  unfold convert_date_for_nclat
  rw [if_pos h]

lemma map_slashed_some (o : Option Date) (t : String)
    (h : o.map strftimeSlashed = some t) : convert_date_for_nclat t = some t := by
  cases o with
  | none => simp at h
  | some d =>
    have ht : strftimeSlashed d = t := by simpa using h
    rw [← ht]
    exact convert_nclat_of_slash _ (strftimeSlashed_contains d)

/-- Claim C8: the tribunal normalizer maps "2024-03-05" and "05-03-2024" to
"05/03/2024", leaves "05/03/2024" unchanged, and is idempotent on every
output it produces. -/
theorem claim_C8_nclat_idempotent :
    convert_date_for_nclat "2024-03-05" = some "05/03/2024"
    ∧ convert_date_for_nclat "05-03-2024" = some "05/03/2024"
    ∧ convert_date_for_nclat "05/03/2024" = some "05/03/2024"
    ∧ ∀ s t : String, convert_date_for_nclat s = some t →
        convert_date_for_nclat t = some t := by
  refine ⟨by decide, by decide, by decide, ?_⟩
  intro s t h
  by_cases hs : containsChar s '/' = true
  · have hts : s = t := by simpa [convert_date_for_nclat, hs] using h
    rw [← hts]
    exact convert_nclat_of_slash s hs
  · unfold convert_date_for_nclat at h
    rw [if_neg hs] at h
    by_cases hd : containsChar s '-' = true
    · rw [if_pos hd] at h
      cases hg : s.data[2]? with
      | none =>
        rw [hg] at h
        exact Option.noConfusion h
      | some c =>
        rw [hg] at h
        have h2 : (if c = '-' then Option.map strftimeSlashed (strptimeDMY s)
            else Option.map strftimeSlashed (strptimeYMD s)) = some t := h
        by_cases hc : c = '-'
        · rw [if_pos hc] at h2
          exact map_slashed_some _ _ h2
        · rw [if_neg hc] at h2
          exact map_slashed_some _ _ h2
    · rw [if_neg hd] at h
      exact map_slashed_some _ _ h

/-- Witness for claim C8: idempotence applied at the output of the ISO
input. -/
theorem claim_C8_witness :
    convert_date_for_nclat "2024-03-05" = some "05/03/2024"
    ∧ convert_date_for_nclat "05/03/2024" = some "05/03/2024" :=
  ⟨claim_C8_nclat_idempotent.1,
   claim_C8_nclat_idempotent.2.2.2 "2024-03-05" "05/03/2024" claim_C8_nclat_idempotent.1⟩

/-! ## Claim C9: snapshot filename derivation -/

lemma dropWhile_append_all (p : Char → Bool) :
    ∀ (w l : List Char), w.all p = true → (w ++ l).dropWhile p = l.dropWhile p := by
  intro w
  induction w with
  | nil => intro l _; rfl
  | cons c cs ih =>
    intro l hall
    simp only [List.all_cons, Bool.and_eq_true] at hall
    simp [List.dropWhile, hall.1, ih l hall.2]

lemma dropWhile_eq_nil_of_all (p : Char → Bool) (w : List Char) (hw : w.all p = true) :
    w.dropWhile p = [] := by
  have h := dropWhile_append_all p w [] hw
  simpa using h

lemma dropWhile_append_split (p : Char → Bool) :
    ∀ (l w : List Char), (l ++ w).dropWhile p =
      if l.dropWhile p = [] then w.dropWhile p else l.dropWhile p ++ w := by
  intro l
  induction l with
  | nil => intro w; simp
  | cons c t ih =>
    intro w
    by_cases hc : p c
    · simpa [List.dropWhile, hc] using ih w
    · simp [List.dropWhile, hc]

lemma rstrip_append_spaces (l w : List Char) (hw : w.all pyIsSpace = true) :
    rstripChars (l ++ w) = rstripChars l := by
  have hwr : w.reverse.all pyIsSpace = true := by
    rw [List.all_reverse]
    exact hw
  unfold rstripChars
  rw [List.reverse_append, dropWhile_append_all _ _ _ hwr]

lemma stripChars_append_spaces (l w : List Char) (hw : w.all pyIsSpace = true) :
    stripChars (l ++ w) = stripChars l := by
  unfold stripChars
  rw [dropWhile_append_split]
  by_cases h0 : l.dropWhile pyIsSpace = []
  · rw [if_pos h0, h0, dropWhile_eq_nil_of_all _ _ hw]
  · rw [if_neg h0, rstrip_append_spaces _ _ hw]

lemma stripChars_spaces_append (w l : List Char) (hw : w.all pyIsSpace = true) :
    stripChars (w ++ l) = stripChars l := by
  unfold stripChars
  rw [dropWhile_append_all _ _ _ hw]

lemma pyStrip_pad (w1 k w2 : String) (h1 : w1.data.all pyIsSpace = true)
    (h2 : w2.data.all pyIsSpace = true) : pyStrip (w1 ++ k ++ w2) = pyStrip k := by
  unfold pyStrip
  rw [String.data_append, String.data_append,
    stripChars_append_spaces _ _ h2, stripChars_spaces_append _ _ h1]

/-- Two characters equal up to identifying a space with an underscore. -/
def chEq (a b : Char) : Bool := a == b || (a == ' ' && b == '_') || (a == '_' && b == ' ')

/-- Two character lists pointwise equal up to spaces versus underscores. -/
def spaceUnderscoreEq : List Char → List Char → Bool
  | [], [] => true
  | a :: as, b :: bs => chEq a b && spaceUnderscoreEq as bs
  | _, _ => false

lemma replSp_eq_of_chEq (a b : Char) (h : chEq a b = true) : replSp a = replSp b := by
  unfold chEq at h
  simp only [Bool.or_eq_true, Bool.and_eq_true, beq_iff_eq] at h
  rcases h with (h | ⟨h1, h2⟩) | ⟨h1, h2⟩
  · rw [h]
  · subst h1
    subst h2
    rfl
  · subst h1
    subst h2
    rfl

lemma map_replSp_eq : ∀ (l1 l2 : List Char), spaceUnderscoreEq l1 l2 = true →
    l1.map replSp = l2.map replSp := by
  intro l1
  induction l1 with
  | nil =>
    intro l2 h
    cases l2 with
    | nil => rfl
    | cons b bs => simp [spaceUnderscoreEq] at h
  | cons a as ih =>
    intro l2 h
    cases l2 with
    | nil => simp [spaceUnderscoreEq] at h
    | cons b bs =>
      unfold spaceUnderscoreEq at h
      simp only [Bool.and_eq_true] at h
      simp [replSp_eq_of_chEq a b h.1, ih bs h.2]

/-- Claim C9 counterexample: the keywords " a" and "_a" differ only in a
space versus an underscore, yet they map to the distinct snapshot files
"a_party.json" and "_a_party.json", because stripping happens before the
space-to-underscore replacement. -/
theorem claim_C9_cex :
    monitorFilename " a" "party" = "a_party.json"
    ∧ monitorFilename "_a" "party" = "_a_party.json"
    ∧ monitorFilename " a" "party" ≠ monitorFilename "_a" "party" := by
  refine ⟨by decide, by decide, by decide⟩

/-- Claim C9 (amended): the monitor derives its snapshot key by stripping
leading and trailing whitespace from the keyword and then replacing each
space of the stripped keyword with an underscore before appending the mode;
consequently keywords differing only in surrounding whitespace share the
snapshot file, and keywords whose stripped forms differ only in spaces versus
underscores share the snapshot file (spaces stripped from the ends are not
protected this way, as the counterexample shows). -/
theorem claim_C9_filename_key (k k1 k2 mode w1 w2 : String)
    (hw1 : w1.data.all pyIsSpace = true) (hw2 : w2.data.all pyIsSpace = true)
    (hsu : spaceUnderscoreEq (pyStrip k1).data (pyStrip k2).data = true) :
    monitorFilename (w1 ++ k ++ w2) mode = monitorFilename k mode
    ∧ monitorFilename k1 mode = monitorFilename k2 mode := by
  constructor
  · unfold monitorFilename
    rw [pyStrip_pad _ _ _ hw1 hw2]
  · unfold monitorFilename pyReplaceSpace
    rw [map_replSp_eq _ _ hsu]

/-- Witness for claim C9: " a b " and "a b" share a file, and "a b" and
"a_b" share a file. -/
theorem claim_C9_witness :
    monitorFilename (" " ++ "a b" ++ " ") "party" = monitorFilename "a b" "party"
    ∧ monitorFilename "a b" "party" = monitorFilename "a_b" "party" :=
  claim_C9_filename_key "a b" "a b" "a_b" "party" " " " "
    (by decide) (by decide) (by decide)

/-! ## Claim C10: unrecognized court selectors -/

/-- Claim C10: a single-date request with a date supplied, and a range
request, whose court selector is none of supreme, delhi, bombay, nclat or
all, return an empty list successfully without invoking any backend. -/
theorem claim_C10_unknown_court {α : Type} (env : BackendEnv α) (p d c s e : String)
    (h1 : c ≠ "supreme") (h2 : c ≠ "delhi") (h3 : c ≠ "bombay") (h4 : c ≠ "nclat")
    (h5 : c ≠ "all") :
    search_cases env ⟨p, some d, c⟩ = ([], [])
    ∧ search_cases_range env ⟨p, s, e, c⟩ = ([], []) := by
  constructor
  · unfold search_cases
    by_cases hd : d = ""
    · simp [hd]
    · simp [hd, singleCalls, singleSupreme, singleDelhi, singleBombay, singleNclat,
        runBranch, h1, h2, h3, h4, h5]
  · unfold search_cases_range
    simp [rangeCalls, rangeSupreme, rangeDelhi, rangeBombay, rangeNclat,
      runBranch, h1, h2, h3, h4, h5]

/-- Witness for claim C10 at the selector "cerc", which the dispatchers do
not recognize. -/
theorem claim_C10_witness :
    search_cases unitEnv ⟨"p", some "2024-03-05", "cerc"⟩ = ([], [])
    ∧ search_cases_range unitEnv ⟨"p", "2024-03-05", "2024-03-06", "cerc"⟩ = ([], []) :=
  claim_C10_unknown_court unitEnv "p" "2024-03-05" "cerc" "2024-03-05" "2024-03-06"
    (by decide) (by decide) (by decide) (by decide) (by decide)

end CasePulse
